import Mathlib

/-!
Shallow embedding of petewarden/extract_loudest_section.

The sources embedded here are `wav_io.cc` (EncodeAudioAsS16LEWav,
DecodeLin16WaveAsFloatVector and their helpers) and `main.cc`
(TrimToLoudestSegment, TrimFile), together with the `Status` type of
`status.h`.

Modelling conventions:
- A byte buffer is a `List ℕ` whose entries are byte values.
- C `float` samples are modelled as `ℚ`; all float arithmetic in the
  source is modelled exactly over `ℚ`.  (In consequence, `x / 0` is `0`
  in the model where IEEE arithmetic would give a NaN or infinity; every
  theorem below that touches such a division is stated so that its truth
  does not depend on this choice.)
- `size_t` arithmetic is `ℕ` reduced `% 2^64` where the source can wrap;
  `uint32`/`uint16` stores truncate `% 2^32` / `% 2^16` exactly as the
  `EncodeFixed32`/`EncodeFixed16` helpers do via their parameter types.
- `Status` with an error state becomes `Except StatusErr`; the only code
  constructed by these sources is `INVALID_ARGUMENT`, and messages are
  the concatenation of the `errors::InvalidArgument` arguments exactly as
  produced by `stringer` (no separators).
-/

set_option allowUnsafeReducibility true in
attribute [semireducible] Rat.add Rat.sub Rat.mul Rat.inv Rat.ofScientific

deriving instance DecidableEq for Except

/-- Error codes of `status.h` that these sources construct. -/
inductive ErrorCode where
  | invalidArgument
deriving DecidableEq, Repr

/-- An error `Status`: code plus human-readable message (`status.h`). -/
structure StatusErr where
  code : ErrorCode
  msg : String
deriving DecidableEq, Repr

/-- `errors::InvalidArgument(...)` with the already-concatenated message. -/
def invalidArgument (msg : String) : StatusErr := ⟨.invalidArgument, msg⟩

/-- Chunk id text "RIFF". -/
def kRiffChunkId : List ℕ := [82, 73, 70, 70]

/-- Riff type text "WAVE". -/
def kRiffType : List ℕ := [87, 65, 86, 69]

/-- Chunk id text "fmt ". -/
def kFormatChunkId : List ℕ := [102, 109, 116, 32]

/-- Chunk id text "data". -/
def kDataChunkId : List ℕ := [100, 97, 116, 97]

/-- Little-endian value of a byte list (first byte is least significant). -/
def leList : List ℕ → ℕ
  | [] => 0
  | b :: bs => b + 256 * leList bs

/-- The two bytes of a `uint16` store (`EncodeFixed16`): little endian,
truncating the value `% 2^16`. -/
def u16bytes (v : ℕ) : List ℕ := [v % 256, v / 256 % 256]

/-- The four bytes of a `uint32` store (`EncodeFixed32`): little endian,
truncating the value `% 2^32`. -/
def u32bytes (v : ℕ) : List ℕ :=
  [v % 256, v / 256 % 256, v / 65536 % 256, v / 16777216 % 256]

/-- Bytes of an `int16` sample as stored by the encoder
(`static_cast<uint16_t>(sample)`, two's complement). -/
def s16bytes (s : ℤ) : List ℕ := u16bytes (s % 65536).toNat

/-- Bytes rendered as text, for the `ExpectText` mismatch message. -/
def bytesAsString (bs : List ℕ) : String := String.mk (bs.map Char.ofNat)

/-- `Int16SampleToFloat`: `data * (1.0f / (1 << 15))`. -/
def int16SampleToFloat (v : ℤ) : ℚ := (v : ℚ) / 32768

/-- `roundf`: round to nearest, halves away from zero. -/
def roundAwayFromZero (q : ℚ) : ℤ :=
  if 0 ≤ q then ⌊q + 1 / 2⌋ else ⌈q - 1 / 2⌉

/-- `FloatToInt16Sample`: `min(max(roundf(data * 2^15), -32768), 32767)`. -/
def floatToInt16Sample (x : ℚ) : ℤ :=
  min (max (roundAwayFromZero (x * 32768)) (-32768)) 32767

/-- Decoded value of the `int16` stored at a little-endian `uint16` value
(two's complement). -/
def toInt16 (u : ℕ) : ℤ := if u < 32768 then (u : ℤ) else (u : ℤ) - 65536

def kuint16max : ℕ := 65535

def kuint32max : ℕ := 4294967295

/-- `sizeof(WavHeader)` = 12 + 24 + 8. -/
def kHeaderSize : ℕ := 44

/-- `EncodeAudioAsS16LEWav` (wav_io.cc).  `audio` is the sample buffer the
`float*` points at; indices past its end read as 0 (the C source requires
the caller to supply `num_frames * num_channels` samples).  The two
null-pointer checks on `audio` and `wav_string` have no counterpart for the
value-typed arguments here.  `size_t` arithmetic wraps `% 2^64`. -/
def encodeAudioAsS16LEWav (audio : List ℚ) (sampleRate numChannels numFrames : ℕ) :
    Except StatusErr (List ℕ) :=
  if sampleRate = 0 ∨ sampleRate > kuint32max then
    .error (invalidArgument ("sample_rate must be in (0, 2^32), got: " ++ toString sampleRate))
  else if numChannels = 0 ∨ numChannels > kuint16max then
    .error (invalidArgument ("num_channels must be in (0, 2^16), got: " ++ toString numChannels))
  else if numFrames = 0 then
    .error (invalidArgument "num_frames must be positive.")
  else
    let bytesPerSecond := sampleRate * 2 % 2 ^ 64
    let numSamples := numFrames * numChannels % 2 ^ 64
    let dataSize := numSamples * 2 % 2 ^ 64
    let fileSize := (kHeaderSize + numSamples * 2) % 2 ^ 64
    let bytesPerFrame := 2 * numChannels % 2 ^ 64
    if fileSize > kuint32max then
      .error (invalidArgument "Provided channels and frames cannot be encoded as a WAV.")
    else
      .ok (kRiffChunkId ++ u32bytes ((fileSize + 2 ^ 64 - 8) % 2 ^ 64) ++ kRiffType ++
        kFormatChunkId ++ u32bytes 16 ++ u16bytes 1 ++ u16bytes numChannels ++
        u32bytes sampleRate ++ u32bytes bytesPerSecond ++ u16bytes bytesPerFrame ++
        u16bytes 16 ++
        kDataChunkId ++ u32bytes dataSize ++
        ((List.range numSamples).map
          (fun i => s16bytes (floatToInt16Sample (audio.getD i 0)))).flatten)

/-- `ExpectText` (wav_io.cc): read `expected.length` bytes at the cursor and
require them to equal `expected`; advance only on success. -/
def expectText (data expected : List ℕ) (off : ℕ) : Except StatusErr ℕ :=
  if off + expected.length > data.length then
    .error (invalidArgument ("Data too short when trying to read " ++ bytesAsString expected))
  else
    let found := (data.drop off).take expected.length
    if found = expected then .ok (off + expected.length)
    else .error (invalidArgument ("Header mismatch: Expected " ++ bytesAsString expected ++
      " but found " ++ bytesAsString found))

/-- `ReadValue<T>` (wav_io.cc) for an unsigned little-endian integer of
`width` bytes; returns the value and the advanced cursor. -/
def readValueLE (data : List ℕ) (width off : ℕ) : Except StatusErr (ℕ × ℕ) :=
  if off + width > data.length then
    .error (invalidArgument "Data too short when trying to read value")
  else
    .ok (leList ((data.drop off).take width), off + width)

/-- The float values produced by the decoder's data-chunk loop: the `i`-th
`int16` is read at `off + 2 * i` and converted by `Int16SampleToFloat`. -/
def readSampleValues (data : List ℕ) (count off : ℕ) : List ℚ :=
  (List.range count).map
    (fun i => int16SampleToFloat (toInt16 (leList ((data.drop (off + 2 * i)).take 2))))

/-- The chunk-scanning `while` loop of `DecodeLin16WaveAsFloatVector`
(wav_io.cc lines 287-310).  Per iteration it performs `ReadString(4)` for the
chunk id and `ReadValue<uint32>` for the chunk size (their bounds checks and
error messages are inlined here); for a data chunk it then performs
`sample_count * channel_count` `ReadValue<int16>` reads, whose sequence of
bounds checks fails exactly when the last sample would run past the buffer,
with the same message as a single failing read.  A non-data chunk advances
the cursor by the declared chunk size without any bounds check.
`chunk_size / bytes_per_sample` is C `uint32` division; for
`bytes_per_sample = 0` (reachable only with a zero channel count) the C
division is undefined while `ℕ` division yields 0.

The structural `fuel` argument only bounds the number of iterations so that
the recursion is structural (and so kernel-reducible): every iteration
advances the cursor by at least 8 bytes, so the `data.length + 1` units the
decoder passes are never exhausted, and the fuel-0 branch repeats the loop's
exit result; `scanChunks_fuel_irrelevant` below proves that any sufficient
fuel gives the same function. -/
def scanChunks (data : List ℕ) (bytesPerSample channelCount : ℕ) :
    (fuel off : ℕ) → (wasDataFound : Bool) → (floatValues : List ℚ) → (sampleCount : ℕ) →
    Except StatusErr (List ℚ × ℕ)
  | 0, _off, wasDataFound, floatValues, sampleCount =>
    if wasDataFound then .ok (floatValues, sampleCount)
    else .error (invalidArgument "No data chunk found in WAV")
  | fuel + 1, off, wasDataFound, floatValues, sampleCount =>
    if off < data.length then
      if off + 4 > data.length then
        .error (invalidArgument "Data too short when trying to read string")
      else
        let chunkId := (data.drop off).take 4
        if off + 8 > data.length then
          .error (invalidArgument "Data too short when trying to read value")
        else
          let chunkSize := leList ((data.drop (off + 4)).take 4)
          if chunkId = kDataChunkId then
            if wasDataFound then
              .error (invalidArgument "More than one data chunk found in WAV")
            else
              let sc := chunkSize / bytesPerSample
              let dataCount := sc * channelCount % 2 ^ 32
              if off + 8 + 2 * dataCount > data.length then
                .error (invalidArgument "Data too short when trying to read value")
              else
                scanChunks data bytesPerSample channelCount fuel (off + 8 + 2 * dataCount) true
                  (readSampleValues data dataCount (off + 8)) sc
          else
            scanChunks data bytesPerSample channelCount fuel (off + 8 + chunkSize) wasDataFound
              floatValues sampleCount
    else
      if wasDataFound then .ok (floatValues, sampleCount)
      else .error (invalidArgument "No data chunk found in WAV")

/-- The out-parameters of `DecodeLin16WaveAsFloatVector`. -/
structure DecodeResult where
  floatValues : List ℚ
  sampleCount : ℕ
  channelCount : ℕ
  sampleRate : ℕ
deriving DecidableEq, Repr

/-- `DecodeLin16WaveAsFloatVector` (wav_io.cc).  The straight-line header
parse followed by the chunk scan.  The `expected_bytes_per_second`
recomputation is the decoder's `uint32` multiplication, hence `% 2^32`. -/
def decodeLin16WaveAsFloatVector (wavData : List ℕ) : Except StatusErr DecodeResult :=
  match expectText wavData kRiffChunkId 0 with
  | .error e => .error e
  | .ok off =>
  match readValueLE wavData 4 off with
  | .error e => .error e
  | .ok (_totalFileSize, off) =>
  match expectText wavData kRiffType off with
  | .error e => .error e
  | .ok off =>
  match expectText wavData kFormatChunkId off with
  | .error e => .error e
  | .ok off =>
  match readValueLE wavData 4 off with
  | .error e => .error e
  | .ok (formatChunkSize, off) =>
  if ¬(formatChunkSize = 16 ∨ formatChunkSize = 18) then
    .error (invalidArgument ("Bad file size for WAV: Expected 16 or 18, but got" ++
      toString formatChunkSize))
  else
  match readValueLE wavData 2 off with
  | .error e => .error e
  | .ok (audioFormat, off) =>
  if audioFormat ≠ 1 then
    .error (invalidArgument ("Bad audio format for WAV: Expected 1 (PCM), but got" ++
      toString audioFormat))
  else
  match readValueLE wavData 2 off with
  | .error e => .error e
  | .ok (channelCount, off) =>
  match readValueLE wavData 4 off with
  | .error e => .error e
  | .ok (sampleRate, off) =>
  match readValueLE wavData 4 off with
  | .error e => .error e
  | .ok (bytesPerSecond, off) =>
  match readValueLE wavData 2 off with
  | .error e => .error e
  | .ok (bytesPerSample, off) =>
  match readValueLE wavData 2 off with
  | .error e => .error e
  | .ok (bitsPerSample, off) =>
  if bitsPerSample ≠ 16 then
    .error (invalidArgument ("Can only read 16-bit WAV files, but received " ++
      toString bitsPerSample))
  else
  let expectedBytesPerSample := (bitsPerSample * channelCount + 7) / 8
  if bytesPerSample ≠ expectedBytesPerSample then
    .error (invalidArgument ("Bad bytes per sample in WAV header: Expected " ++
      toString expectedBytesPerSample ++ " but got " ++ toString bytesPerSample))
  else
  let expectedBytesPerSecond := bytesPerSample * sampleRate % 2 ^ 32
  if bytesPerSecond ≠ expectedBytesPerSecond then
    .error (invalidArgument ("Bad bytes per second in WAV header: Expected " ++
      toString expectedBytesPerSecond ++ " but got " ++ toString bytesPerSecond ++
      " (sample_rate=" ++ toString sampleRate ++ ", bytes_per_sample=" ++
      toString bytesPerSample ++ ")"))
  else
  let off := if formatChunkSize = 18 then off + 2 else off
  match scanChunks wavData bytesPerSample channelCount (wavData.length + 1) off false [] 0 with
  | .error e => .error e
  | .ok (floatValues, sampleCount) =>
    .ok ⟨floatValues, sampleCount, channelCount, sampleRate⟩

/-- The loop state of `TrimToLoudestSegment`: `current_volume_sum`,
`loudest_end_index`, `loudest_volume`. -/
structure ScanState where
  currentSum : ℚ
  loudestEnd : ℕ
  loudestVolume : ℚ
deriving DecidableEq, Repr

/-- One iteration of the sliding-window loop of `TrimToLoudestSegment`
(main.cc lines 391-400) at index `i`. -/
def slideStep (input : List ℚ) (desiredSamples : ℕ) (s : ScanState) (i : ℕ) : ScanState :=
  let trailingValue := input.getD (i - desiredSamples) 0
  let afterSub := s.currentSum - |trailingValue|
  let leadingValue := input.getD i 0
  let cur := afterSub + |leadingValue|
  if cur > s.loudestVolume then ⟨cur, i, cur⟩ else ⟨cur, s.loudestEnd, s.loudestVolume⟩

/-- `TrimToLoudestSegment` (main.cc lines 376-405). -/
def trimToLoudestSegment (input : List ℚ) (desiredSamples : ℕ) : List ℚ :=
  if desiredSamples ≥ input.length then input
  else
    let initialSum := ((input.take desiredSamples).map (fun v => |v|)).sum
    let final := (List.range' desiredSamples (input.length - desiredSamples)).foldl
      (slideStep input desiredSamples) ⟨initialSum, desiredSamples, initialSum⟩
    let loudestStart := final.loudestEnd - desiredSamples
    (input.drop loudestStart).take desiredSamples

/-- Sum of absolute sample values over the window `[start, start + len)` --
the quantity `TrimToLoudestSegment` is meant to maximise. -/
def windowSumAbs (input : List ℚ) (start len : ℕ) : ℚ :=
  (((input.drop start).take len).map (fun v => |v|)).sum

/-- The channel-downmix step of `TrimFile` (main.cc lines 427-439), applied
when `channel_count != 1`.  `sampleCount` is the decoder's `sample_count`
out-parameter. -/
def downmixToMono (wavSamples : List ℚ) (sampleCount channelCount : ℕ) : List ℚ :=
  let monoSampleCount := sampleCount / channelCount
  (List.range monoSampleCount).map (fun i =>
    let frameIndex := i * channelCount
    (((List.range channelCount).map (fun c => wavSamples.getD (frameIndex + c) 0)).sum) /
      (channelCount : ℚ))

/-- The mono buffer `TrimFile` hands to the segment search. -/
def pipelineMonoSamples (res : DecodeResult) : List ℚ :=
  if res.channelCount ≠ 1 then
    downmixToMono res.floatValues res.sampleCount res.channelCount
  else res.floatValues

/-- `desired_samples = (desired_length_ms * sample_rate) / 1000` (main.cc). -/
def pipelineDesiredSamples (desiredLengthMs : ℕ) (res : DecodeResult) : ℕ :=
  desiredLengthMs * res.sampleRate / 1000

/-- The slice `TrimFile` extracts. -/
def pipelineTrimmed (desiredLengthMs : ℕ) (res : DecodeResult) : List ℚ :=
  trimToLoudestSegment (pipelineMonoSamples res) (pipelineDesiredSamples desiredLengthMs res)

/-- `average_volume = total_volume / desired_samples` over the extracted
slice (main.cc lines 444-448).  When `desired_samples = 0` this is the
source's division by zero; the model's `ℚ` division then yields `0`. -/
def pipelineAverageVolume (desiredLengthMs : ℕ) (res : DecodeResult) : ℚ :=
  ((pipelineTrimmed desiredLengthMs res).map (fun v => |v|)).sum /
    ((pipelineDesiredSamples desiredLengthMs res : ℕ) : ℚ)

/-- Outcome of one `TrimFile` call that did not fail: either the output
file's bytes were written, or the input was skipped as too quiet (which
writes nothing). -/
inductive TrimOutcome where
  | saved (bytes : List ℕ)
  | skipped
deriving DecidableEq, Repr

/-- `TrimFile` (main.cc lines 407-466) on the input file's bytes.  The
source ignores `save_wav_status`: on an encode failure `output_wav_data`
is still empty, so the empty byte string is written and `Status::OK()`
is returned. -/
def trimFile (input : List ℕ) (desiredLengthMs : ℕ) (minVolume : ℚ) :
    Except StatusErr TrimOutcome :=
  match decodeLin16WaveAsFloatVector input with
  | .error e => .error e
  | .ok res =>
    if pipelineAverageVolume desiredLengthMs res < minVolume then .ok .skipped
    else
      let trimmed := pipelineTrimmed desiredLengthMs res
      match encodeAudioAsS16LEWav trimmed res.sampleRate 1 trimmed.length with
      | .ok outputWavData => .ok (.saved outputWavData)
      | .error _ => .ok (.saved [])

/-- A WAV byte buffer with the minimal 44-byte header layout the encoder
produces, but with every header field a parameter, followed by `rest`.
Instantiating the fields gives every buffer whose header region has the
RIFF/WAVE/fmt literals in place. -/
def mkWavHeader (totalFileSize formatChunkSize compressionCode channelCount sampleRate
    bytesPerSecond bytesPerFrame bitsPerSample : ℕ) (rest : List ℕ) : List ℕ :=
  kRiffChunkId ++ (u32bytes totalFileSize ++ (kRiffType ++ (kFormatChunkId ++
    (u32bytes formatChunkSize ++ (u16bytes compressionCode ++ (u16bytes channelCount ++
    (u32bytes sampleRate ++ (u32bytes bytesPerSecond ++ (u16bytes bytesPerFrame ++
    (u16bytes bitsPerSample ++ rest))))))))))

/-- A minimal valid mono WAV: sample rate 8000, one zero sample. -/
def quietWav : List ℕ :=
  mkWavHeader 38 16 1 1 8000 16000 2 16 (kDataChunkId ++ u32bytes 2 ++ [0, 0])

/-- A decodable WAV whose declared sample rate is 0 (the header arithmetic
`bytes_per_second = bytes_per_frame * sample_rate = 0` is consistent), with
one nonzero sample; `desired_samples` computed from it is 0. -/
def rateZeroWav : List ℕ :=
  mkWavHeader 38 16 1 1 0 0 2 16 (kDataChunkId ++ u32bytes 2 ++ [1, 0])

/-- A WAV with a data chunk followed by a trailing "junk" chunk whose
declared size (100) extends far past the end of the buffer. -/
def truncatedJunkWav : List ℕ :=
  mkWavHeader 46 16 1 1 1 2 2 16
    (kDataChunkId ++ u32bytes 2 ++ [0, 0] ++ [106, 117, 110, 107] ++ u32bytes 100)

/-- A WAV containing two data chunks. -/
def doubleDataWav : List ℕ :=
  mkWavHeader 54 16 1 1 1 2 2 16
    (kDataChunkId ++ u32bytes 2 ++ [0, 0] ++ kDataChunkId ++ u32bytes 2 ++ [0, 0])

/-- A WAV whose chunk list holds only a "junk" chunk and no data chunk. -/
def noDataWav : List ℕ :=
  mkWavHeader 46 16 1 1 1 2 2 16 ([106, 117, 110, 107] ++ u32bytes 2 ++ [0, 0])

/-- The spec's loudest-window example input. -/
def loudExample : List ℚ := [0, 0, 0, 10, 10, 10, 0, 0, 0]

/-- The bytes the encoder produces for one stereo frame `[1, 1]` at sample
rate 8000 (the encode call succeeds). -/
def stereoEncoded : List ℕ :=
  (encodeAudioAsS16LEWav [1, 1] 8000 2 1).toOption.getD []

/-- C1: `TrimToLoudestSegment` does not return the maximal-sum window.  On
the spec's own example `[0,0,0,10,10,10,0,0,0]` with window length 3 the
code returns the slice starting at offset 2, whose absolute-volume sum is
20, although the window at offset 3 has the maximal sum 30: after the loop
body has updated the running sum to the sum of the window ending at `i + 1`
it records `loudest_end_index = i`, so the copied range `[end - len, end)`
is one sample to the left of the window whose sum was compared.  The last
two conjuncts record the parts of the claim the code does satisfy: the
all-equal tie `[5,5,5,5,5,5]` yields the earliest window, and a window
length beyond the buffer returns the whole buffer. -/
theorem trimToLoudestSegment_off_by_one :
    trimToLoudestSegment loudExample 3 = [0, 10, 10] ∧
    windowSumAbs loudExample 2 3 = 20 ∧
    windowSumAbs loudExample 3 3 = 30 ∧
    trimToLoudestSegment [5, 5, 5, 5, 5, 5] 3 = [5, 5, 5] ∧
    trimToLoudestSegment loudExample 12 = loudExample := by
  refine ⟨by decide, by decide, by decide, by decide, by decide⟩

/-- C2: decode-after-encode fails outright for a stereo buffer.  The
encoder writes `bytes_per_second = sample_rate * 2` with no channel factor,
while the decoder requires `bytes_per_second = bytes_per_frame *
sample_rate`; for `[1, 1]` at rate 8000 with 2 channels the encode succeeds
but decoding its output is an `InvalidArgument` error, not a round trip. -/
theorem encode_decode_round_trip_fails_stereo :
    encodeAudioAsS16LEWav [1, 1] 8000 2 1 = .ok stereoEncoded ∧
    decodeLin16WaveAsFloatVector stereoEncoded = .error (invalidArgument
      "Bad bytes per second in WAV header: Expected 32000 but got 16000 (sample_rate=8000, bytes_per_sample=4)") := by
  refine ⟨by decide, by decide⟩

/-- C3: the downmix step of `TrimFile` divides the decoder's frame count
(`sample_count`) by `channel_count` again, so a 2-channel buffer
`[1, -1, 1/2, -1/2]` with 2 frames downmixes to the single sample `[0]`
-- the second frame is dropped -- instead of one sample per frame. -/
theorem downmixToMono_drops_frames :
    downmixToMono [1, -1, 1/2, -1/2] 2 2 = [0] ∧
    downmixToMono [1, -1, 1/2, -1/2] 2 2 ≠ [0, 0] := by
  refine ⟨by decide, by decide⟩

/-- C5: an encode failure is not propagated by `TrimFile`.  On a decodable
WAV whose declared sample rate is 0 and with `min_volume = 0`, the slice is
empty, so the encode step fails with `InvalidArgument`; `TrimFile` ignores
`save_wav_status`, writes the still-empty output string and returns OK. -/
theorem trimFile_ignores_encode_failure :
    decodeLin16WaveAsFloatVector rateZeroWav = .ok ⟨[1/32768], 1, 1, 0⟩ ∧
    pipelineTrimmed 1000 ⟨[1/32768], 1, 1, 0⟩ = [] ∧
    encodeAudioAsS16LEWav [] 0 1 0 = .error (invalidArgument
      "sample_rate must be in (0, 2^32), got: 0") ∧
    trimFile rateZeroWav 1000 0 = .ok (.saved []) := by
  refine ⟨by decide, by decide, by decide, by decide⟩

/-- C9: when `desired_samples = 0` (here: declared sample rate 0, so
`1000 * 0 / 1000 = 0`), `TrimFile` performs the average-volume division by
zero and carries on; it never returns a failure status (in IEEE float
arithmetic the quotient is a NaN, whose comparison with `min_volume = -1`
is false exactly as the model's `0 < -1` is, so the pipeline proceeds to
the encode step and returns OK either way). -/
theorem trimFile_zero_desired_samples_not_a_failure :
    pipelineDesiredSamples 1000 ⟨[1/32768], 1, 1, 0⟩ = 0 ∧
    trimFile rateZeroWav 1000 (-1) = .ok (.saved []) := by
  refine ⟨by decide, by decide⟩

/-- C10: the decoder skips a non-data chunk by adding its declared size to
the cursor with no bounds check.  `truncatedJunkWav` is 54 bytes; its junk
chunk at offset 46 declares 100 payload bytes that do not exist, yet
decoding succeeds because the cursor lands past the end of the buffer and
the scan loop simply terminates with the earlier data chunk consumed. -/
theorem decode_skips_chunk_size_unchecked :
    truncatedJunkWav.length = 54 ∧
    decodeLin16WaveAsFloatVector truncatedJunkWav = .ok ⟨[0], 1, 1, 1⟩ := by
  refine ⟨by decide, by decide⟩

/-- Any two sufficient fuels give `scanChunks` the same result: the fuel
argument is only a structural bound on the iteration count, not part of the
modelled loop's semantics.  `data.length ≤ off + 8 * fuel` suffices because
every iteration advances the cursor by at least 8. -/
theorem scanChunks_fuel_irrelevant (data : List ℕ) (bps cc : ℕ) :
    ∀ f1 f2 off found vals sc, data.length ≤ off + 8 * f1 → data.length ≤ off + 8 * f2 →
      scanChunks data bps cc f1 off found vals sc = scanChunks data bps cc f2 off found vals sc := by
  intro f1
  induction f1 with
  | zero =>
    intro f2 off found vals sc h1 h2
    cases f2 with
    | zero => rfl
    | succ m =>
      rw [scanChunks.eq_1, scanChunks.eq_2, if_neg (show ¬ off < data.length by omega)]
  | succ n ih =>
    intro f2 off found vals sc h1 h2
    cases f2 with
    | zero =>
      rw [scanChunks.eq_1, scanChunks.eq_2, if_neg (show ¬ off < data.length by omega)]
    | succ m =>
      simp only [scanChunks.eq_2]
      by_cases hlt : off < data.length
      · rw [if_pos hlt, if_pos hlt]
        by_cases h4 : off + 4 > data.length
        · rw [if_pos h4, if_pos h4]
        · rw [if_neg h4, if_neg h4]
          by_cases h8 : off + 8 > data.length
          · rw [if_pos h8, if_pos h8]
          · rw [if_neg h8, if_neg h8]
            by_cases hid : (data.drop off).take 4 = kDataChunkId
            · rw [if_pos hid, if_pos hid]
              by_cases hf : found = true
              · rw [if_pos hf, if_pos hf]
              · rw [if_neg hf, if_neg hf]
                by_cases hd :
                    off + 8 + 2 * (leList ((data.drop (off + 4)).take 4) / bps * cc % 2 ^ 32) >
                      data.length
                · rw [if_pos hd, if_pos hd]
                · rw [if_neg hd, if_neg hd]
                  exact ih m _ _ _ _ (by omega) (by omega)
            · rw [if_neg hid, if_neg hid]
              exact ih m _ _ _ _ (by omega) (by omega)
      · rw [if_neg hlt, if_neg hlt]

/-- If dropping `off` leaves a nonempty prefix `seg` followed by `r`, the
cursor and the two segment lengths tile the buffer exactly. -/
theorem drop_append_bounds (data seg r : List ℕ) (off : ℕ)
    (h : data.drop off = seg ++ r) (hne : seg ≠ []) :
    off + seg.length + r.length = data.length := by
  have hlen : data.length - off = seg.length + r.length := by
    have := congrArg List.length h
    simpa using this
  have hoff : off ≤ data.length := by
    by_contra hlt
    push_neg at hlt
    have hnil : data.drop off = [] := List.drop_eq_nil_of_le (le_of_lt hlt)
    rw [hnil] at h
    rcases List.append_eq_nil.mp h.symm with ⟨h1, _⟩
    exact hne h1
  omega

/-- C7: the decoder's chunk scan fails on a second data chunk and on a
missing data chunk.  First conjunct: at any cursor position where the next
8 bytes are a chunk header whose id is "data", with a data chunk already
consumed (`wasDataFound = true`), the scan stops with the duplicate-data
`InvalidArgument` error.  Second conjunct: when the cursor has reached (or
passed) the end of the buffer without a data chunk having been seen, the
scan stops with the no-data-chunk `InvalidArgument` error (for any fuel,
including the decoder's `data.length + 1`).  The last two conjuncts run the
full decoder on a WAV with two data chunks and on one whose only chunk is
a junk chunk. -/
theorem scanChunks_data_chunk_errors (data : List ℕ) (bps cc fuel off : ℕ)
    (vals : List ℚ) (sc : ℕ) (r : List ℕ) :
    (data.drop off = kDataChunkId ++ r → 4 ≤ r.length →
      scanChunks data bps cc (fuel + 1) off true vals sc =
        .error (invalidArgument "More than one data chunk found in WAV")) ∧
    (data.length ≤ off →
      scanChunks data bps cc fuel off false vals sc =
        .error (invalidArgument "No data chunk found in WAV")) ∧
    decodeLin16WaveAsFloatVector doubleDataWav =
      .error (invalidArgument "More than one data chunk found in WAV") ∧
    decodeLin16WaveAsFloatVector noDataWav =
      .error (invalidArgument "No data chunk found in WAV") := by
  refine ⟨?_, ?_, by decide, by decide⟩
  · intro h hr
    have hb := drop_append_bounds data kDataChunkId r off h (by decide)
    have hid : (data.drop off).take 4 = kDataChunkId := by
      rw [h]
      exact List.take_left' rfl
    rw [scanChunks.eq_2,
      if_pos (show off < data.length by simp [kDataChunkId] at hb; omega),
      if_neg (show ¬ off + 4 > data.length by simp [kDataChunkId] at hb; omega)]
    rw [if_neg (show ¬ off + 8 > data.length by simp [kDataChunkId] at hb; omega)]
    simp only [hid, if_true]
  · intro hoff
    cases fuel with
    | zero => rw [scanChunks.eq_1, if_neg (by simp)]
    | succ m =>
      rw [scanChunks.eq_2, if_neg (show ¬ off < data.length by omega),
        if_neg (by simp)]

/-- Witness for `scanChunks_data_chunk_errors`: a buffer that is exactly a
second "data" chunk header at cursor 0 with a data chunk already consumed
errors, and an empty buffer with no data chunk seen errors. -/
theorem scanChunks_data_chunk_errors_witness :
    scanChunks [100, 97, 116, 97, 0, 0, 0, 0] 2 1 1 0 true [] 0 =
      .error (invalidArgument "More than one data chunk found in WAV") ∧
    scanChunks [] 2 1 1 0 false [] 0 =
      .error (invalidArgument "No data chunk found in WAV") := by
  constructor
  · exact (scanChunks_data_chunk_errors [100, 97, 116, 97, 0, 0, 0, 0] 2 1 0 0 [] 0
      [0, 0, 0, 0]).1 (by decide) (by decide)
  · exact (scanChunks_data_chunk_errors [] 2 1 1 0 [] 0 []).2.1 (by decide)

/-- C4: whenever the extracted slice's average absolute sample value is
below the minimum-volume threshold, `TrimFile` returns success with the
skipped outcome: no error, no output bytes, and the encoder is never
reached (the skip branch returns before the encode call). -/
theorem trimFile_skips_too_quiet (input : List ℕ) (desiredLengthMs : ℕ) (minVolume : ℚ)
    (res : DecodeResult)
    (hdec : decodeLin16WaveAsFloatVector input = .ok res)
    (hquiet : pipelineAverageVolume desiredLengthMs res < minVolume) :
    trimFile input desiredLengthMs minVolume = .ok .skipped := by
  simp only [trimFile, hdec]
  rw [if_pos hquiet]

/-- Witness for `trimFile_skips_too_quiet`: a valid mono WAV holding one
zero sample at rate 8000 has average volume 0 < 0.004, so `TrimFile` with
the driver's threshold reports the skipped outcome. -/
theorem trimFile_skips_too_quiet_witness :
    trimFile quietWav 1000 (1 / 250) = .ok .skipped :=
  trimFile_skips_too_quiet quietWav 1000 (1 / 250) ⟨[0], 1, 1, 8000⟩
    (by decide) (by decide)

/-- C8: `EncodeAudioAsS16LEWav` rejects, before building any output bytes,
a zero or too-large sample rate, a zero or too-large channel count, a zero
frame count, and a computed total file size (44-byte header plus 2 bytes
per sample, in the encoder's `size_t` arithmetic) exceeding the 32-bit
limit; each rejection is the corresponding `InvalidArgument` error, so
nothing is truncated or wrapped into the size field. -/
theorem encodeAudioAsS16LEWav_rejections (audio : List ℚ)
    (sampleRate numChannels numFrames : ℕ) :
    (sampleRate = 0 ∨ sampleRate > kuint32max →
      encodeAudioAsS16LEWav audio sampleRate numChannels numFrames =
        .error (invalidArgument ("sample_rate must be in (0, 2^32), got: " ++
          toString sampleRate))) ∧
    (¬(sampleRate = 0 ∨ sampleRate > kuint32max) →
      numChannels = 0 ∨ numChannels > kuint16max →
      encodeAudioAsS16LEWav audio sampleRate numChannels numFrames =
        .error (invalidArgument ("num_channels must be in (0, 2^16), got: " ++
          toString numChannels))) ∧
    (¬(sampleRate = 0 ∨ sampleRate > kuint32max) →
      ¬(numChannels = 0 ∨ numChannels > kuint16max) → numFrames = 0 →
      encodeAudioAsS16LEWav audio sampleRate numChannels numFrames =
        .error (invalidArgument "num_frames must be positive.")) ∧
    (¬(sampleRate = 0 ∨ sampleRate > kuint32max) →
      ¬(numChannels = 0 ∨ numChannels > kuint16max) → numFrames ≠ 0 →
      (kHeaderSize + numFrames * numChannels % 2 ^ 64 * 2) % 2 ^ 64 > kuint32max →
      encodeAudioAsS16LEWav audio sampleRate numChannels numFrames =
        .error (invalidArgument "Provided channels and frames cannot be encoded as a WAV.")) := by
  refine ⟨fun h1 => ?_, fun h1 h2 => ?_, fun h1 h2 h3 => ?_, fun h1 h2 h3 h4 => ?_⟩
  · simp only [encodeAudioAsS16LEWav]
    rw [if_pos h1]
  · simp only [encodeAudioAsS16LEWav]
    rw [if_neg h1, if_pos h2]
  · simp only [encodeAudioAsS16LEWav]
    rw [if_neg h1, if_neg h2, if_pos h3]
  · simp only [encodeAudioAsS16LEWav]
    rw [if_neg h1, if_neg h2, if_neg h3, if_pos h4]

/-- Witness for `encodeAudioAsS16LEWav_rejections`: concrete rejected calls
for each precondition -- rate 0; 2^16 channels; 0 frames; and 2^31 mono
frames, whose 44 + 2^32 byte file size exceeds the 32-bit limit. -/
theorem encodeAudioAsS16LEWav_rejections_witness :
    encodeAudioAsS16LEWav [] 0 1 1 =
      .error (invalidArgument "sample_rate must be in (0, 2^32), got: 0") ∧
    encodeAudioAsS16LEWav [] 8000 65536 1 =
      .error (invalidArgument "num_channels must be in (0, 2^16), got: 65536") ∧
    encodeAudioAsS16LEWav [] 8000 1 0 =
      .error (invalidArgument "num_frames must be positive.") ∧
    encodeAudioAsS16LEWav [] 8000 1 2147483648 =
      .error (invalidArgument "Provided channels and frames cannot be encoded as a WAV.") :=
  ⟨(encodeAudioAsS16LEWav_rejections [] 0 1 1).1 (by decide),
   (encodeAudioAsS16LEWav_rejections [] 8000 65536 1).2.1 (by decide) (by decide),
   (encodeAudioAsS16LEWav_rejections [] 8000 1 0).2.2.1 (by decide) (by decide) rfl,
   (encodeAudioAsS16LEWav_rejections [] 8000 1 2147483648).2.2.2 (by decide) (by decide)
     (by decide) (by decide)⟩

/-- C6: for every input byte buffer whose header reads deliver the given
field values (expressed through the decoder's own reader operations), the
decoder fails with `InvalidArgument` when the fmt-chunk size is neither 16
nor 18; when the compression code is not 1 (PCM); when `bits_per_sample`
is not 16; when the declared bytes-per-frame field differs from
`(bits_per_sample * channel_count + 7) / 8` (the ceiling of
`bits * channels / 8`); and when the declared bytes-per-second field
differs from `bytes_per_frame * sample_rate` computed in the decoder's
`uint32` arithmetic -- and the two arithmetic-mismatch messages name both
the expected and the actual value. -/
theorem decode_header_validation (data : List ℕ)
    (tfs fcs comp ch rate bps bpf bits : ℕ)
    (h1 : expectText data kRiffChunkId 0 = .ok 4)
    (h2 : readValueLE data 4 4 = .ok (tfs, 8))
    (h3 : expectText data kRiffType 8 = .ok 12)
    (h4 : expectText data kFormatChunkId 12 = .ok 16)
    (h5 : readValueLE data 4 16 = .ok (fcs, 20))
    (h6 : readValueLE data 2 20 = .ok (comp, 22))
    (h7 : readValueLE data 2 22 = .ok (ch, 24))
    (h8 : readValueLE data 4 24 = .ok (rate, 28))
    (h9 : readValueLE data 4 28 = .ok (bps, 32))
    (h10 : readValueLE data 2 32 = .ok (bpf, 34))
    (h11 : readValueLE data 2 34 = .ok (bits, 36)) :
    (¬(fcs = 16 ∨ fcs = 18) →
      decodeLin16WaveAsFloatVector data = .error (invalidArgument
        ("Bad file size for WAV: Expected 16 or 18, but got" ++ toString fcs))) ∧
    ((fcs = 16 ∨ fcs = 18) → comp ≠ 1 →
      decodeLin16WaveAsFloatVector data = .error (invalidArgument
        ("Bad audio format for WAV: Expected 1 (PCM), but got" ++ toString comp))) ∧
    ((fcs = 16 ∨ fcs = 18) → comp = 1 → bits ≠ 16 →
      decodeLin16WaveAsFloatVector data = .error (invalidArgument
        ("Can only read 16-bit WAV files, but received " ++ toString bits))) ∧
    ((fcs = 16 ∨ fcs = 18) → comp = 1 → bits = 16 → bpf ≠ (bits * ch + 7) / 8 →
      decodeLin16WaveAsFloatVector data = .error (invalidArgument
        ("Bad bytes per sample in WAV header: Expected " ++ toString ((bits * ch + 7) / 8) ++
          " but got " ++ toString bpf))) ∧
    ((fcs = 16 ∨ fcs = 18) → comp = 1 → bits = 16 → bpf = (bits * ch + 7) / 8 →
      bps ≠ bpf * rate % 2 ^ 32 →
      decodeLin16WaveAsFloatVector data = .error (invalidArgument
        ("Bad bytes per second in WAV header: Expected " ++ toString (bpf * rate % 2 ^ 32) ++
          " but got " ++ toString bps ++ " (sample_rate=" ++ toString rate ++
          ", bytes_per_sample=" ++ toString bpf ++ ")"))) := by
  refine ⟨fun ha => ?_, fun hf hc => ?_, fun hf hc hb => ?_, fun hf hc hb hp => ?_,
    fun hf hc hb hp hs => ?_⟩
  all_goals simp only [decodeLin16WaveAsFloatVector, h1, h2, h3, h4, h5, h6, h7, h8, h9,
    h10, h11]
  · rw [if_pos ha]
  · rw [if_neg (not_not_intro hf), if_pos hc]
  · rw [if_neg (not_not_intro hf), if_neg (not_not_intro hc), if_pos hb]
  · subst hb
    rw [if_neg (not_not_intro hf), if_neg (not_not_intro hc), if_neg (not_not_intro rfl),
      if_pos hp]
  · subst hb
    subst hp
    rw [if_neg (not_not_intro hf), if_neg (not_not_intro hc), if_neg (not_not_intro rfl),
      if_neg (not_not_intro rfl), if_pos hs]

/-- Witness for `decode_header_validation`: five concrete headers, one per
rejected field -- fmt size 17, compression code 2, bits-per-sample 8,
bytes-per-frame 3 (expected 2), and bytes-per-second 15999 (expected
16000). -/
theorem decode_header_validation_witness :
    decodeLin16WaveAsFloatVector (mkWavHeader 0 17 1 1 8000 16000 2 16 []) =
      .error (invalidArgument "Bad file size for WAV: Expected 16 or 18, but got17") ∧
    decodeLin16WaveAsFloatVector (mkWavHeader 0 16 2 1 8000 16000 2 16 []) =
      .error (invalidArgument "Bad audio format for WAV: Expected 1 (PCM), but got2") ∧
    decodeLin16WaveAsFloatVector (mkWavHeader 0 16 1 1 8000 16000 2 8 []) =
      .error (invalidArgument "Can only read 16-bit WAV files, but received 8") ∧
    decodeLin16WaveAsFloatVector (mkWavHeader 0 16 1 1 8000 16000 3 16 []) =
      .error (invalidArgument
        "Bad bytes per sample in WAV header: Expected 2 but got 3") ∧
    decodeLin16WaveAsFloatVector (mkWavHeader 0 16 1 1 8000 15999 2 16 []) =
      .error (invalidArgument
        "Bad bytes per second in WAV header: Expected 16000 but got 15999 (sample_rate=8000, bytes_per_sample=2)") :=
  ⟨(decode_header_validation (mkWavHeader 0 17 1 1 8000 16000 2 16 []) 0 17 1 1 8000 16000
      2 16 (by decide) (by decide) (by decide) (by decide) (by decide) (by decide)
      (by decide) (by decide) (by decide) (by decide) (by decide)).1 (by decide),
   (decode_header_validation (mkWavHeader 0 16 2 1 8000 16000 2 16 []) 0 16 2 1 8000 16000
      2 16 (by decide) (by decide) (by decide) (by decide) (by decide) (by decide)
      (by decide) (by decide) (by decide) (by decide) (by decide)).2.1 (by decide) (by decide),
   (decode_header_validation (mkWavHeader 0 16 1 1 8000 16000 2 8 []) 0 16 1 1 8000 16000
      2 8 (by decide) (by decide) (by decide) (by decide) (by decide) (by decide)
      (by decide) (by decide) (by decide) (by decide) (by decide)).2.2.1 (by decide) rfl
      (by decide),
   (decode_header_validation (mkWavHeader 0 16 1 1 8000 16000 3 16 []) 0 16 1 1 8000 16000
      3 16 (by decide) (by decide) (by decide) (by decide) (by decide) (by decide)
      (by decide) (by decide) (by decide) (by decide) (by decide)).2.2.2.1 (by decide) rfl
      rfl (by decide),
   (decode_header_validation (mkWavHeader 0 16 1 1 8000 15999 2 16 []) 0 16 1 1 8000 15999
      2 16 (by decide) (by decide) (by decide) (by decide) (by decide) (by decide)
      (by decide) (by decide) (by decide) (by decide) (by decide)).2.2.2.2 (by decide) rfl
      rfl rfl (by decide)⟩
